import Mathlib

/-!
# Climascope — verification of the notification/alerting subsystem

Shallow embedding of the alerting logic of the Climascope weather
application (`weatherapp/email_service.py`,
`weatherapp/management/commands/send_weather_alerts.py`,
`weatherapp/management/commands/send_daily_summaries.py`,
`weatherapp/management/commands/cleanup_old_data.py`,
`weatherapp/forms.py`).

Modelling conventions:
* Temperatures and thresholds are rationals (`ℚ`); the Django model stores
  nullable floats, embedded as `Option ℚ`.
* Timestamps are integers (seconds); `timedelta(days=d)` is `d * 86400`
  seconds and `timedelta(hours=h)` is `h * 3600` seconds.
* Python truthiness of a nullable float (`if x:` with `x : float | None`)
  is `false` for `None` and for `0.0`, `true` otherwise.
* The Django ORM tables touched by the alerting code are embedded as lists
  of records inside a `DBState`; `QuerySet.delete()` on a filter is removal
  of the matching records.
* The mail transport and the weather HTTP fetch are external effects; each
  call site takes the outcome of the external call as an explicit argument
  (`transportOk : Bool`, `FetchOutcome`), and a Python exception escaping a
  modelled region is an `Except.error` / the no-effect branch, exactly where
  the source catches it.
-/

namespace Climascope

/-- Python substring test `pat in s` on strings. -/
def pyIn (pat s : String) : Bool :=
  (List.range (s.toList.length + 1)).any
    (fun i => (s.toList.drop i).take pat.toList.length == pat.toList)

/-- Python `str.lower()`, character by character.  (The core
`String.toLower` is implemented through `String.mapAux`, which the kernel
cannot reduce; this is the same character map stated over the underlying
list.) -/
def pyLower (s : String) : String := String.mk (s.toList.map Char.toLower)

/-- Truthiness of a nullable float in Python: `None` and `0.0` are falsy. -/
def pyTruthy (x : Option ℚ) : Bool :=
  match x with
  | none => false
  | some t => decide (t ≠ 0)

/-- The guard of the high-temperature branch,
`city.temperature_threshold_high and temperature > city.temperature_threshold_high`
(identical text in `analyze_weather_conditions` and
`check_weather_conditions_for_alerts`). -/
def highThresholdTriggered (thr : Option ℚ) (temperature : ℚ) : Bool :=
  match thr with
  | none => false
  | some t => decide (t ≠ 0) && decide (temperature > t)

/-- The guard of the low-temperature branch,
`city.temperature_threshold_low and temperature < city.temperature_threshold_low`. -/
def lowThresholdTriggered (thr : Option ℚ) (temperature : ℚ) : Bool :=
  match thr with
  | none => false
  | some t => decide (t ≠ 0) && decide (temperature < t)

/-- `WeatherAlert.ALERT_TYPES` (models.py). -/
inductive AlertType
  | temperature_high
  | temperature_low
  | rain
  | storm
  | severe
  | daily_summary
deriving Repr, DecidableEq

/-- `FavoriteCity` (models.py): the fields read by the alerting code.
`temperature_threshold_high` / `temperature_threshold_low` are nullable
floats. -/
structure FavoriteCity where
  city_name : String
  temperature_threshold_high : Option ℚ
  temperature_threshold_low : Option ℚ
  notify_rain : Bool
  notify_extreme_weather : Bool
deriving Repr, DecidableEq

/-- A weather payload after the caller's `'main' in weather_data` guard:
`main.temp` and `weather[0].description` are both present. -/
structure Snapshot where
  temp : ℚ
  description : String
deriving Repr, DecidableEq

/-- `severe_conditions` in `Command.analyze_weather_conditions`
(send_weather_alerts.py, line 157). -/
def severe_conditions : List String :=
  ["storm", "thunder", "severe", "tornado", "hurricane", "hail"]

/-- The severe-keyword list inlined in
`WeatherNotificationService.check_weather_conditions_for_alerts`
(email_service.py, line 339) — note it has no "hail". -/
def service_severe_conditions : List String :=
  ["storm", "thunder", "severe", "tornado", "hurricane"]

/-- `Command.analyze_weather_conditions` (send_weather_alerts.py,
lines 127–165): pure evaluator returning the `(alert_type, message)` pairs
in the fixed order high, low, rain, severe. -/
def analyze_weather_conditions (weather : Snapshot) (city : FavoriteCity) :
    List (AlertType × String) :=
  let temperature := weather.temp
  let description := pyLower weather.description
  let alerts_needed : List (AlertType × String) := []
  let alerts_needed :=
    if highThresholdTriggered city.temperature_threshold_high temperature then
      alerts_needed ++ [(AlertType.temperature_high,
        "High temperature: " ++ toString temperature ++ "°C")]
    else alerts_needed
  let alerts_needed :=
    if lowThresholdTriggered city.temperature_threshold_low temperature then
      alerts_needed ++ [(AlertType.temperature_low,
        "Low temperature: " ++ toString temperature ++ "°C")]
    else alerts_needed
  let alerts_needed :=
    if city.notify_rain && pyIn "rain" description then
      alerts_needed ++ [(AlertType.rain, "Rain expected: " ++ description)]
    else alerts_needed
  let alerts_needed :=
    if city.notify_extreme_weather &&
        severe_conditions.any (fun condition => pyIn condition description) then
      alerts_needed ++ [(AlertType.severe, "Severe weather: " ++ description)]
    else alerts_needed
  alerts_needed

/-- `UserProfile` (models.py): the notification-relevant flags. -/
structure UserProfile where
  email_notifications : Bool
  is_deactivated : Bool
  is_email_verified : Bool
deriving Repr, DecidableEq

/-- `WeatherNotificationService.can_send_notification` (email_service.py,
lines 20–28).  The argument is the result of the
`UserProfile.objects.get(user=user)` lookup; `UserProfile.DoesNotExist`
(i.e. `none`) is caught and yields `false`. -/
def can_send_notification (profile : Option UserProfile) : Bool :=
  match profile with
  | some p => p.email_notifications && !p.is_deactivated && p.is_email_verified
  | none => false

/-- A row of the `WeatherAlert` table (models.py). -/
structure WeatherAlertRec where
  user : Nat
  city_name : String
  alert_type : AlertType
  message : String
  temperature : Option ℚ
  weather_condition : String
  created_at : Int
  is_sent : Bool
  sent_at : Option Int
deriving Repr, DecidableEq

/-- A row of the `EmailNotification` table (models.py). -/
structure EmailNotificationRec where
  user : Nat
  subject : String
  message : String
  email_type : String
  is_sent : Bool
  sent_at : Option Int
  created_at : Int
deriving Repr, DecidableEq

/-- The persisted state touched by the alert dispatch path. -/
structure DBState where
  alerts : List WeatherAlertRec
  notifications : List EmailNotificationRec
deriving Repr, DecidableEq

/-- `WeatherNotificationService.send_weather_alert_email` (email_service.py,
lines 203–253).  `transportOk` is the outcome of the external
`email.send(fail_silently=False)` call; `false` means the transport raised,
which the enclosing `try/except` catches, skipping the `alert.save()` and
the `EmailNotification.objects.create` that follow the send.  Returns the
boolean result, the (possibly updated) alert row, and the audit record
created, if any. -/
def send_weather_alert_email (profile : Option UserProfile) (transportOk : Bool)
    (now : Int) (alert : WeatherAlertRec) :
    Bool × WeatherAlertRec × Option EmailNotificationRec :=
  if !can_send_notification profile then
    (false, alert, none)
  else
    let subject := "🌤️ Weather Alert for " ++ alert.city_name
    let subject :=
      if alert.alert_type = AlertType.severe then "🚨 URGENT: " ++ subject
      else subject
    if transportOk then
      let alert := { alert with is_sent := true, sent_at := some now }
      (true, alert,
        some { user := alert.user, subject := subject, message := alert.message,
               email_type := "weather_alert", is_sent := true,
               sent_at := some now, created_at := now })
    else
      (false, alert, none)

/-- `WeatherNotificationService.create_temperature_alert` (email_service.py,
lines 255–273): gate, create the `WeatherAlert` row, then send.  The row
that ends up persisted is the one after `send_weather_alert_email`'s
`alert.save()` (if it ran). -/
def create_temperature_alert (profile : Option UserProfile) (transportOk : Bool)
    (now : Int) (user : Nat) (city_name : String) (temperature : ℚ)
    (alert_type : String) (st : DBState) : DBState :=
  if !can_send_notification profile then st
  else
    let temp_type := if alert_type = "high" then "high" else "low"
    let threshold := if alert_type = "high" then "above" else "below"
    let message := "Temperature alert for " ++ city_name ++ ": " ++
      toString temperature ++ "°C - " ++ threshold ++ " your threshold"
    let alert : WeatherAlertRec :=
      { user := user, city_name := city_name,
        alert_type := if temp_type = "high" then AlertType.temperature_high
                      else AlertType.temperature_low,
        message := message, temperature := some temperature,
        weather_condition := "", created_at := now,
        is_sent := false, sent_at := none }
    let r := send_weather_alert_email profile transportOk now alert
    { st with alerts := st.alerts ++ [r.2.1],
              notifications := st.notifications ++ r.2.2.toList }

/-- `WeatherNotificationService.create_rain_alert` (email_service.py,
lines 275–290). -/
def create_rain_alert (profile : Option UserProfile) (transportOk : Bool)
    (now : Int) (user : Nat) (city_name : String) (description : String)
    (st : DBState) : DBState :=
  if !can_send_notification profile then st
  else
    let message := "Rain alert for " ++ city_name ++ ": " ++ description
    let alert : WeatherAlertRec :=
      { user := user, city_name := city_name, alert_type := AlertType.rain,
        message := message, temperature := none,
        weather_condition := description, created_at := now,
        is_sent := false, sent_at := none }
    let r := send_weather_alert_email profile transportOk now alert
    { st with alerts := st.alerts ++ [r.2.1],
              notifications := st.notifications ++ r.2.2.toList }

/-- `WeatherNotificationService.create_severe_weather_alert`
(email_service.py, lines 292–307). -/
def create_severe_weather_alert (profile : Option UserProfile)
    (transportOk : Bool) (now : Int) (user : Nat) (city_name : String)
    (description : String) (st : DBState) : DBState :=
  if !can_send_notification profile then st
  else
    let message := "⚠️ SEVERE WEATHER ALERT for " ++ city_name ++ ": " ++ description
    let alert : WeatherAlertRec :=
      { user := user, city_name := city_name, alert_type := AlertType.severe,
        message := message, temperature := none,
        weather_condition := description, created_at := now,
        is_sent := false, sent_at := none }
    let r := send_weather_alert_email profile transportOk now alert
    { st with alerts := st.alerts ++ [r.2.1],
              notifications := st.notifications ++ r.2.2.toList }

/-- A raw weather payload as seen by the service layer: `main.temp` when the
`'main'` key is present, `weather[0].description` when the `'weather'` list
is present and non-empty. -/
structure WeatherData where
  main : Option ℚ
  description : Option String
deriving Repr, DecidableEq

/-- Outcome of the external HTTP GET performed by
`WeatherNotificationService.get_weather_data`. -/
inductive FetchOutcome
  | success (payload : WeatherData)
  | connectionError
  | timeoutError
  | httpError (status : Nat)
deriving Repr, DecidableEq

/-- `WeatherNotificationService.get_weather_data` (email_service.py, lines
125–134): connection errors, timeouts and the `HTTPError` raised by
`response.raise_for_status()` on a non-2xx status are all
`requests.exceptions.RequestException`s, caught and turned into `None`. -/
def get_weather_data (outcome : FetchOutcome) : Option WeatherData :=
  match outcome with
  | FetchOutcome.success payload => some payload
  | FetchOutcome.connectionError => none
  | FetchOutcome.timeoutError => none
  | FetchOutcome.httpError _ => none

/-- `WeatherNotificationService.check_weather_conditions_for_alerts`
(email_service.py, lines 321–343).  The two subscript chains
`weather_data['main']['temp']` and
`weather_data['weather'][0]['description']` run before any dispatch; a
`KeyError`/`IndexError` there is caught by the enclosing `try/except`,
leaving the state unchanged. -/
def check_weather_conditions_for_alerts (profile : Option UserProfile)
    (transportOk : Bool) (now : Int) (user : Nat)
    (favorite_city : FavoriteCity) (weather_data : WeatherData)
    (st : DBState) : DBState :=
  match weather_data.main, weather_data.description with
  | some temperature, some rawDescription =>
    let description := pyLower rawDescription
    let st :=
      if highThresholdTriggered favorite_city.temperature_threshold_high temperature then
        create_temperature_alert profile transportOk now user
          favorite_city.city_name temperature "high" st
      else st
    let st :=
      if lowThresholdTriggered favorite_city.temperature_threshold_low temperature then
        create_temperature_alert profile transportOk now user
          favorite_city.city_name temperature "low" st
      else st
    let st :=
      if favorite_city.notify_rain && pyIn "rain" description then
        create_rain_alert profile transportOk now user
          favorite_city.city_name description st
      else st
    let st :=
      if favorite_city.notify_extreme_weather &&
          service_severe_conditions.any (fun condition => pyIn condition description) then
        create_severe_weather_alert profile transportOk now user
          favorite_city.city_name description st
      else st
    st
  | _, _ => st

/-- `WeatherNotificationService.check_weather_alerts_for_user`
(email_service.py, lines 309–319): gate, then for each favorite city fetch
the weather and, when the payload is present and has a `'main'` key, run
the condition checker.  `cities` pairs each favorite city with the outcome
of its HTTP fetch. -/
def check_weather_alerts_for_user (profile : Option UserProfile)
    (transportOk : Bool) (now : Int) (user : Nat)
    (cities : List (FavoriteCity × FetchOutcome)) (st : DBState) : DBState :=
  if !can_send_notification profile then st
  else
    cities.foldl (fun st city =>
      match get_weather_data city.2 with
      | some weather_data =>
        if weather_data.main.isSome then
          check_weather_conditions_for_alerts profile transportOk now user
            city.1 weather_data st
        else st
      | none => st) st

/-- A row of the `WeatherHistory` table (models.py): the field read by the
cleanup command. -/
structure WeatherHistoryRec where
  searched_at : Int
deriving Repr, DecidableEq

/-- A row of the `WeatherForecast` table (models.py): the field read by the
cleanup command. -/
structure WeatherForecastRec where
  last_updated : Int
deriving Repr, DecidableEq

/-- `Command.cleanup_weather_history` (cleanup_old_data.py, lines 82–99):
deletes the records with `searched_at < now - timedelta(days=days)`.
Returns the surviving table and the deleted count. -/
def cleanup_weather_history (now : Int) (days : Int)
    (records : List WeatherHistoryRec) : List WeatherHistoryRec × Nat :=
  let cutoff_date := now - days * 86400
  let old_records := records.filter (fun r => decide (r.searched_at < cutoff_date))
  (records.filter (fun r => !decide (r.searched_at < cutoff_date)),
   old_records.length)

/-- `Command.cleanup_weather_alerts` (cleanup_old_data.py, lines 102–122):
deletes the alerts with `created_at < cutoff` AND `is_sent=True`. -/
def cleanup_weather_alerts (now : Int) (days : Int)
    (alerts : List WeatherAlertRec) : List WeatherAlertRec × Nat :=
  let cutoff_date := now - days * 86400
  let old_alerts :=
    alerts.filter (fun r => decide (r.created_at < cutoff_date) && r.is_sent)
  (alerts.filter (fun r => !(decide (r.created_at < cutoff_date) && r.is_sent)),
   old_alerts.length)

/-- `Command.cleanup_email_notifications` (cleanup_old_data.py, lines
124–144): deletes the notifications with `created_at < cutoff` AND
`is_sent=True`. -/
def cleanup_email_notifications (now : Int) (days : Int)
    (notifications : List EmailNotificationRec) :
    List EmailNotificationRec × Nat :=
  let cutoff_date := now - days * 86400
  let old_notifications :=
    notifications.filter (fun r => decide (r.created_at < cutoff_date) && r.is_sent)
  (notifications.filter
     (fun r => !(decide (r.created_at < cutoff_date) && r.is_sent)),
   old_notifications.length)

/-- `Command.cleanup_forecasts` (cleanup_old_data.py, lines 146–163):
deletes the forecasts with `last_updated < now - timedelta(hours=hours)`. -/
def cleanup_forecasts (now : Int) (hours : Int)
    (forecasts : List WeatherForecastRec) : List WeatherForecastRec × Nat :=
  let cutoff_date := now - hours * 3600
  let old_forecasts :=
    forecasts.filter (fun r => decide (r.last_updated < cutoff_date))
  (forecasts.filter (fun r => !decide (r.last_updated < cutoff_date)),
   old_forecasts.length)

/-- `FavoriteCityAlertForm.clean` (forms.py, lines 144–155): raises a
`ValidationError` exactly when both thresholds are present and
`temp_high <= temp_low`; otherwise returns the cleaned data unchanged. -/
def favoriteCityAlertForm_clean
    (temperature_threshold_high temperature_threshold_low : Option ℚ) :
    Except String (Option ℚ × Option ℚ) :=
  match temperature_threshold_high, temperature_threshold_low with
  | some temp_high, some temp_low =>
    if temp_high ≤ temp_low then
      Except.error
        "High temperature threshold must be greater than low temperature threshold."
    else
      Except.ok (temperature_threshold_high, temperature_threshold_low)
  | _, _ => Except.ok (temperature_threshold_high, temperature_threshold_low)

/-- The per-user loop of `Command.handle` in send_weather_alerts.py (lines
50–63): `check_user_alerts` may raise (`Except.error`), in which case the
exception is caught and logged and the loop continues with the next user.
Returns `(alerts_sent, users_processed)`. -/
def alerts_handle_loop {α : Type} (check_user_alerts : α → Except String Nat)
    (users : List α) : Nat × Nat :=
  users.foldl (fun acc user =>
    match check_user_alerts user with
    | Except.ok result =>
      let alerts_sent := if result ≠ 0 then acc.1 + result else acc.1
      (alerts_sent, acc.2 + 1)
    | Except.error _ => acc) (0, 0)

/-- The per-user loop of `Command.handle` in send_daily_summaries.py (lines
49–63): `send_user_summary` may raise; the exception is caught and the loop
continues.  Returns `(summaries_sent, users_processed)`. -/
def summaries_handle_loop {α : Type} (send_user_summary : α → Except String Bool)
    (users : List α) : Nat × Nat :=
  users.foldl (fun acc user =>
    match send_user_summary user with
    | Except.ok result =>
      let summaries_sent := if result then acc.1 + 1 else acc.1
      (summaries_sent, acc.2 + 1)
    | Except.error _ => acc) (0, 0)

/-! ## Helper lemmas -/

/-- The evaluator's result, written as the concatenation of its four
conditional contributions, in the fixed source order. -/
theorem analyze_weather_conditions_eq (weather : Snapshot) (city : FavoriteCity) :
    analyze_weather_conditions weather city =
      (if highThresholdTriggered city.temperature_threshold_high weather.temp then
        [(AlertType.temperature_high,
          "High temperature: " ++ toString weather.temp ++ "°C")] else []) ++
      (if lowThresholdTriggered city.temperature_threshold_low weather.temp then
        [(AlertType.temperature_low,
          "Low temperature: " ++ toString weather.temp ++ "°C")] else []) ++
      (if city.notify_rain && pyIn "rain" (pyLower weather.description) then
        [(AlertType.rain, "Rain expected: " ++ pyLower weather.description)] else []) ++
      (if city.notify_extreme_weather &&
          severe_conditions.any (fun condition => pyIn condition (pyLower weather.description)) then
        [(AlertType.severe, "Severe weather: " ++ pyLower weather.description)] else []) := by
  by_cases h1 : highThresholdTriggered city.temperature_threshold_high weather.temp <;>
  by_cases h2 : lowThresholdTriggered city.temperature_threshold_low weather.temp <;>
  by_cases h3 : city.notify_rain && pyIn "rain" (pyLower weather.description) <;>
  by_cases h4 : city.notify_extreme_weather &&
      severe_conditions.any (fun condition => pyIn condition (pyLower weather.description)) <;>
  simp [analyze_weather_conditions, h1, h2, h3, h4]

/-- The alert types produced by the evaluator. -/
theorem analyze_alertTypes (weather : Snapshot) (city : FavoriteCity) :
    (analyze_weather_conditions weather city).map Prod.fst =
      (if highThresholdTriggered city.temperature_threshold_high weather.temp then
        [AlertType.temperature_high] else []) ++
      (if lowThresholdTriggered city.temperature_threshold_low weather.temp then
        [AlertType.temperature_low] else []) ++
      (if city.notify_rain && pyIn "rain" (pyLower weather.description) then
        [AlertType.rain] else []) ++
      (if city.notify_extreme_weather &&
          severe_conditions.any (fun condition => pyIn condition (pyLower weather.description)) then
        [AlertType.severe] else []) := by
  rw [analyze_weather_conditions_eq]
  by_cases h1 : highThresholdTriggered city.temperature_threshold_high weather.temp <;>
  by_cases h2 : lowThresholdTriggered city.temperature_threshold_low weather.temp <;>
  by_cases h3 : city.notify_rain && pyIn "rain" (pyLower weather.description) <;>
  by_cases h4 : city.notify_extreme_weather &&
      severe_conditions.any (fun condition => pyIn condition (pyLower weather.description)) <;>
  simp [h1, h2, h3, h4]

/-- High-threshold guard, unfolded to its logical meaning. -/
theorem highThresholdTriggered_iff (thr : Option ℚ) (temperature : ℚ) :
    highThresholdTriggered thr temperature = true ↔
      ∃ t, thr = some t ∧ t ≠ 0 ∧ temperature > t := by
  cases thr <;> simp [highThresholdTriggered, and_assoc]

/-- Low-threshold guard, unfolded to its logical meaning. -/
theorem lowThresholdTriggered_iff (thr : Option ℚ) (temperature : ℚ) :
    lowThresholdTriggered thr temperature = true ↔
      ∃ t, thr = some t ∧ t ≠ 0 ∧ temperature < t := by
  cases thr <;> simp [lowThresholdTriggered, and_assoc]

/-- Membership in the four conditional alert-type chunks. -/
theorem mem_alertTypeChunks (p q r s : Bool) :
    (AlertType.temperature_high ∈
        (if p then [AlertType.temperature_high] else []) ++
        (if q then [AlertType.temperature_low] else []) ++
        (if r then [AlertType.rain] else []) ++
        (if s then [AlertType.severe] else []) ↔ p = true) ∧
    (AlertType.temperature_low ∈
        (if p then [AlertType.temperature_high] else []) ++
        (if q then [AlertType.temperature_low] else []) ++
        (if r then [AlertType.rain] else []) ++
        (if s then [AlertType.severe] else []) ↔ q = true) ∧
    (AlertType.rain ∈
        (if p then [AlertType.temperature_high] else []) ++
        (if q then [AlertType.temperature_low] else []) ++
        (if r then [AlertType.rain] else []) ++
        (if s then [AlertType.severe] else []) ↔ r = true) ∧
    (AlertType.severe ∈
        (if p then [AlertType.temperature_high] else []) ++
        (if q then [AlertType.temperature_low] else []) ++
        (if r then [AlertType.rain] else []) ++
        (if s then [AlertType.severe] else []) ↔ s = true) := by
  cases p <;> cases q <;> cases r <;> cases s <;> decide

/-- `create_temperature_alert` appends exactly one alert row, of the
expected type, when the gate passes. -/
theorem create_temperature_alert_alertTypes (profile : Option UserProfile)
    (h : can_send_notification profile = true) (transportOk : Bool) (now : Int)
    (user : Nat) (city_name : String) (temperature : ℚ) (ty : String)
    (st : DBState) :
    (create_temperature_alert profile transportOk now user city_name
        temperature ty st).alerts.map (fun a => a.alert_type) =
      st.alerts.map (fun a => a.alert_type) ++
        [if ty = "high" then AlertType.temperature_high
         else AlertType.temperature_low] := by
  by_cases hty : ty = "high" <;>
    cases transportOk <;>
      simp [create_temperature_alert, send_weather_alert_email, h, hty]

/-- `create_rain_alert` appends exactly one rain alert row when the gate
passes. -/
theorem create_rain_alert_alertTypes (profile : Option UserProfile)
    (h : can_send_notification profile = true) (transportOk : Bool) (now : Int)
    (user : Nat) (city_name : String) (description : String) (st : DBState) :
    (create_rain_alert profile transportOk now user city_name description
        st).alerts.map (fun a => a.alert_type) =
      st.alerts.map (fun a => a.alert_type) ++ [AlertType.rain] := by
  cases transportOk <;>
    simp [create_rain_alert, send_weather_alert_email, h]

/-- `create_severe_weather_alert` appends exactly one severe alert row when
the gate passes. -/
theorem create_severe_weather_alert_alertTypes (profile : Option UserProfile)
    (h : can_send_notification profile = true) (transportOk : Bool) (now : Int)
    (user : Nat) (city_name : String) (description : String) (st : DBState) :
    (create_severe_weather_alert profile transportOk now user city_name
        description st).alerts.map (fun a => a.alert_type) =
      st.alerts.map (fun a => a.alert_type) ++ [AlertType.severe] := by
  cases transportOk <;>
    simp [create_severe_weather_alert, send_weather_alert_email, h]

/-- The alert types persisted by the service-side condition checker on a
complete payload, when the gate passes. -/
theorem check_conditions_alertTypes (profile : Option UserProfile)
    (h : can_send_notification profile = true) (transportOk : Bool) (now : Int)
    (user : Nat) (city : FavoriteCity) (temp : ℚ) (desc : String)
    (st : DBState) :
    (check_weather_conditions_for_alerts profile transportOk now user city
        ⟨some temp, some desc⟩ st).alerts.map (fun a => a.alert_type) =
      st.alerts.map (fun a => a.alert_type) ++
      ((if highThresholdTriggered city.temperature_threshold_high temp then
          [AlertType.temperature_high] else []) ++
       (if lowThresholdTriggered city.temperature_threshold_low temp then
          [AlertType.temperature_low] else []) ++
       (if city.notify_rain && pyIn "rain" (pyLower desc) then
          [AlertType.rain] else []) ++
       (if city.notify_extreme_weather &&
           service_severe_conditions.any (fun condition => pyIn condition (pyLower desc)) then
          [AlertType.severe] else [])) := by
  by_cases h1 : highThresholdTriggered city.temperature_threshold_high temp <;>
  by_cases h2 : lowThresholdTriggered city.temperature_threshold_low temp <;>
  by_cases h3 : city.notify_rain && pyIn "rain" (pyLower desc) <;>
  by_cases h4 : city.notify_extreme_weather &&
      service_severe_conditions.any (fun condition => pyIn condition (pyLower desc)) <;>
  simp [check_weather_conditions_for_alerts, h1, h2, h3, h4,
    create_temperature_alert_alertTypes profile h,
    create_rain_alert_alertTypes profile h,
    create_severe_weather_alert_alertTypes profile h]

/-! ## Claim theorems -/

/-- Claim C3: `can_send_notification` is the strict conjunction
`email_notifications ∧ ¬is_deactivated ∧ is_email_verified`, and flipping
any single flag to its blocking value forces a `false` result regardless of
the other two. -/
theorem can_send_notification_gate (p : UserProfile) :
    can_send_notification (some p) =
      (p.email_notifications && !p.is_deactivated && p.is_email_verified) ∧
    can_send_notification (some { p with email_notifications := false }) = false ∧
    can_send_notification (some { p with is_deactivated := true }) = false ∧
    can_send_notification (some { p with is_email_verified := false }) = false := by
  rcases p with ⟨e, d, v⟩
  refine ⟨rfl, ?_, ?_, ?_⟩ <;> simp [can_send_notification]

/-- Claim C4: when the eligibility gate fails, the three alert-dispatch
operations leave the persisted state (alert rows and audit rows) exactly
unchanged — no record is created and no send is attempted. -/
theorem dispatch_noop_when_ineligible (profile : Option UserProfile)
    (h : can_send_notification profile = false) (transportOk : Bool)
    (now : Int) (user : Nat) (city_name : String) (temperature : ℚ)
    (alert_type : String) (description : String) (st : DBState) :
    create_temperature_alert profile transportOk now user city_name
        temperature alert_type st = st ∧
    create_rain_alert profile transportOk now user city_name description st = st ∧
    create_severe_weather_alert profile transportOk now user city_name
        description st = st := by
  refine ⟨?_, ?_, ?_⟩ <;>
    simp [create_temperature_alert, create_rain_alert,
      create_severe_weather_alert, h]

/-- Witness for C4: a deactivated profile makes all three dispatchers
no-ops on the empty state. -/
theorem dispatch_noop_when_ineligible_witness :
    create_temperature_alert (some ⟨true, true, true⟩) true 0 0 "London"
        40 "high" (⟨[], []⟩ : DBState) = ⟨[], []⟩ ∧
    create_rain_alert (some ⟨true, true, true⟩) true 0 0 "London"
        "light rain" (⟨[], []⟩ : DBState) = ⟨[], []⟩ ∧
    create_severe_weather_alert (some ⟨true, true, true⟩) true 0 0 "London"
        "light rain" (⟨[], []⟩ : DBState) = ⟨[], []⟩ :=
  dispatch_noop_when_ineligible (some ⟨true, true, true⟩) (by decide)
    true 0 0 "London" 40 "high" "light rain" ⟨[], []⟩

/-- Claim C8: the favorite-city alert form rejects a save exactly when both
thresholds are present and high ≤ low; every save with at most one
threshold, or with high > low, passes and returns the data unchanged. -/
theorem threshold_form_validation (th tl : Option ℚ) :
    (∀ h l, th = some h → tl = some l → h ≤ l →
      favoriteCityAlertForm_clean th tl =
        Except.error
          "High temperature threshold must be greater than low temperature threshold.") ∧
    ((th = none ∨ tl = none ∨ ∃ h l, th = some h ∧ tl = some l ∧ h > l) →
      favoriteCityAlertForm_clean th tl = Except.ok (th, tl)) := by
  constructor
  · rintro h l rfl rfl hle
    simp [favoriteCityAlertForm_clean, hle]
  · rintro (rfl | rfl | ⟨h, l, rfl, rfl, hgt⟩)
    · cases tl <;> simp [favoriteCityAlertForm_clean]
    · cases th <;> simp [favoriteCityAlertForm_clean]
    · simp [favoriteCityAlertForm_clean, not_le.mpr hgt]

/-- Witness for C8: high = 5, low = 10 is rejected; high = 10, low = 5
passes. -/
theorem threshold_form_validation_witness :
    favoriteCityAlertForm_clean (some 5) (some 10) =
      Except.error
        "High temperature threshold must be greater than low temperature threshold." ∧
    favoriteCityAlertForm_clean (some 10) (some 5) =
      Except.ok (some 10, some 5) :=
  ⟨(threshold_form_validation (some 5) (some 10)).1 5 10 rfl rfl (by norm_num),
   (threshold_form_validation (some 10) (some 5)).2
     (Or.inr (Or.inr ⟨10, 5, rfl, rfl, by norm_num⟩))⟩

/-- Claim C1 (counterexample): a temperature_high threshold stored as `0.0`
is set, and the temperature 5 exceeds it, yet the evaluator produces no
intent at all — Python truthiness treats the set threshold `0.0` as unset. -/
theorem zero_threshold_counterexample :
    (⟨"London", some 0, none, false, false⟩ : FavoriteCity).temperature_threshold_high
        = some 0 ∧
    ((5 : ℚ) > 0) ∧
    analyze_weather_conditions ⟨5, "clear sky"⟩
        ⟨"London", some 0, none, false, false⟩ = [] := by
  refine ⟨rfl, by norm_num, by decide⟩

/-- Claim C1 (amended): in both evaluation paths, a temperature_high intent
is produced iff `temperature_threshold_high` is set to a nonzero value and
the temperature strictly exceeds it, and symmetrically for temperature_low
(a threshold stored as `0.0` is treated as unset by the truthiness guard). -/
theorem temperature_intent_characterization (weather : Snapshot)
    (city : FavoriteCity) (profile : Option UserProfile)
    (h : can_send_notification profile = true) (transportOk : Bool)
    (now : Int) (user : Nat) :
    (AlertType.temperature_high ∈
        (analyze_weather_conditions weather city).map Prod.fst ↔
      ∃ t, city.temperature_threshold_high = some t ∧ t ≠ 0 ∧ weather.temp > t) ∧
    (AlertType.temperature_low ∈
        (analyze_weather_conditions weather city).map Prod.fst ↔
      ∃ t, city.temperature_threshold_low = some t ∧ t ≠ 0 ∧ weather.temp < t) ∧
    (AlertType.temperature_high ∈
        (check_weather_conditions_for_alerts profile transportOk now user city
          ⟨some weather.temp, some weather.description⟩ ⟨[], []⟩).alerts.map
          (fun a => a.alert_type) ↔
      ∃ t, city.temperature_threshold_high = some t ∧ t ≠ 0 ∧ weather.temp > t) ∧
    (AlertType.temperature_low ∈
        (check_weather_conditions_for_alerts profile transportOk now user city
          ⟨some weather.temp, some weather.description⟩ ⟨[], []⟩).alerts.map
          (fun a => a.alert_type) ↔
      ∃ t, city.temperature_threshold_low = some t ∧ t ≠ 0 ∧ weather.temp < t) := by
  have hsvc := check_conditions_alertTypes profile h transportOk now user city
    weather.temp weather.description ⟨[], []⟩
  simp only [List.map_nil, List.nil_append] at hsvc
  refine ⟨?_, ?_, ?_, ?_⟩
  · rw [analyze_alertTypes, (mem_alertTypeChunks _ _ _ _).1,
      highThresholdTriggered_iff]
  · rw [analyze_alertTypes, (mem_alertTypeChunks _ _ _ _).2.1,
      lowThresholdTriggered_iff]
  · rw [hsvc, (mem_alertTypeChunks _ _ _ _).1, highThresholdTriggered_iff]
  · rw [hsvc, (mem_alertTypeChunks _ _ _ _).2.1, lowThresholdTriggered_iff]

/-- Witness for the amended C1: threshold 35, temperature 40 produces a
temperature_high intent in the sweep evaluator. -/
theorem temperature_intent_characterization_witness :
    AlertType.temperature_high ∈
      (analyze_weather_conditions ⟨40, "clear sky"⟩
        ⟨"London", some 35, none, false, false⟩).map Prod.fst :=
  (temperature_intent_characterization ⟨40, "clear sky"⟩
      ⟨"London", some 35, none, false, false⟩ (some ⟨true, false, true⟩)
      (by decide) true 0 0).1.mpr ⟨35, rfl, by norm_num, by norm_num⟩

/-- Claim C2 (failing input for the code bug): for an eligible user with
`notify_extreme_weather = true` and the weather description "hail", the
sweep command's analyzer produces a severe intent, but the notification
service's checker — whose keyword list lacks "hail" — creates nothing. -/
theorem service_severe_hail_missed :
    pyIn "hail" "hail" = true ∧
    (analyze_weather_conditions ⟨20, "hail"⟩
        ⟨"London", none, none, false, true⟩).map Prod.fst = [AlertType.severe] ∧
    check_weather_conditions_for_alerts (some ⟨true, false, true⟩) true 0 0
        ⟨"London", none, none, false, true⟩ ⟨some 20, some "hail"⟩ ⟨[], []⟩ =
      ⟨[], []⟩ := by
  refine ⟨by decide, by decide, by decide⟩

/-- Claim C10: under the stored invariant high > low (when both set), the
evaluator never emits both temperature intents for one snapshot, emits at
most one intent of each type, and returns at most 4 intents — in both
evaluation paths. -/
theorem evaluator_intent_bounds (weather : Snapshot) (city : FavoriteCity)
    (profile : Option UserProfile) (transportOk : Bool) (now : Int)
    (user : Nat)
    (hinv : ∀ a b, city.temperature_threshold_high = some a →
      city.temperature_threshold_low = some b → a > b)
    (h : can_send_notification profile = true) :
    (¬(AlertType.temperature_high ∈
          (analyze_weather_conditions weather city).map Prod.fst ∧
        AlertType.temperature_low ∈
          (analyze_weather_conditions weather city).map Prod.fst)) ∧
    (∀ t : AlertType,
      ((analyze_weather_conditions weather city).map Prod.fst).count t ≤ 1) ∧
    (analyze_weather_conditions weather city).length ≤ 4 ∧
    (¬(AlertType.temperature_high ∈
          (check_weather_conditions_for_alerts profile transportOk now user city
            ⟨some weather.temp, some weather.description⟩ ⟨[], []⟩).alerts.map
            (fun a => a.alert_type) ∧
        AlertType.temperature_low ∈
          (check_weather_conditions_for_alerts profile transportOk now user city
            ⟨some weather.temp, some weather.description⟩ ⟨[], []⟩).alerts.map
            (fun a => a.alert_type))) ∧
    (∀ t : AlertType,
      ((check_weather_conditions_for_alerts profile transportOk now user city
          ⟨some weather.temp, some weather.description⟩ ⟨[], []⟩).alerts.map
          (fun a => a.alert_type)).count t ≤ 1) ∧
    (check_weather_conditions_for_alerts profile transportOk now user city
        ⟨some weather.temp, some weather.description⟩ ⟨[], []⟩).alerts.length ≤ 4 := by
  have hnotboth : ¬(highThresholdTriggered city.temperature_threshold_high
        weather.temp = true ∧
      lowThresholdTriggered city.temperature_threshold_low weather.temp = true) := by
    rintro ⟨h1, h2⟩
    obtain ⟨a, ha, -, hgt⟩ := (highThresholdTriggered_iff _ _).mp h1
    obtain ⟨b, hb, -, hlt⟩ := (lowThresholdTriggered_iff _ _).mp h2
    have := hinv a b ha hb
    linarith
  have hsvc := check_conditions_alertTypes profile h transportOk now user city
    weather.temp weather.description ⟨[], []⟩
  simp only [List.map_nil, List.nil_append] at hsvc
  have hlen : (check_weather_conditions_for_alerts profile transportOk now user
      city ⟨some weather.temp, some weather.description⟩ ⟨[], []⟩).alerts.length =
      ((check_weather_conditions_for_alerts profile transportOk now user city
        ⟨some weather.temp, some weather.description⟩ ⟨[], []⟩).alerts.map
        (fun a => a.alert_type)).length := (List.length_map _ _).symm
  refine ⟨?_, ?_, ?_, ?_, ?_, ?_⟩
  · rw [analyze_alertTypes, (mem_alertTypeChunks _ _ _ _).1,
      (mem_alertTypeChunks _ _ _ _).2.1]
    exact hnotboth
  · intro t
    rw [analyze_alertTypes]
    revert t
    rcases highThresholdTriggered city.temperature_threshold_high weather.temp <;>
    rcases lowThresholdTriggered city.temperature_threshold_low weather.temp <;>
    rcases city.notify_rain && pyIn "rain" (pyLower weather.description) <;>
    rcases city.notify_extreme_weather && severe_conditions.any
        (fun condition => pyIn condition (pyLower weather.description)) <;>
    (intro t; cases t <;> simp)
  · have : (analyze_weather_conditions weather city).length =
        ((analyze_weather_conditions weather city).map Prod.fst).length :=
      (List.length_map _ _).symm
    rw [this, analyze_alertTypes]
    rcases highThresholdTriggered city.temperature_threshold_high weather.temp <;>
    rcases lowThresholdTriggered city.temperature_threshold_low weather.temp <;>
    rcases city.notify_rain && pyIn "rain" (pyLower weather.description) <;>
    rcases city.notify_extreme_weather && severe_conditions.any
        (fun condition => pyIn condition (pyLower weather.description)) <;>
    simp
  · rw [hsvc, (mem_alertTypeChunks _ _ _ _).1, (mem_alertTypeChunks _ _ _ _).2.1]
    exact hnotboth
  · intro t
    rw [hsvc]
    revert t
    rcases highThresholdTriggered city.temperature_threshold_high weather.temp <;>
    rcases lowThresholdTriggered city.temperature_threshold_low weather.temp <;>
    rcases city.notify_rain && pyIn "rain" (pyLower weather.description) <;>
    rcases city.notify_extreme_weather && service_severe_conditions.any
        (fun condition => pyIn condition (pyLower weather.description)) <;>
    (intro t; cases t <;> simp)
  · rw [hlen, hsvc]
    rcases highThresholdTriggered city.temperature_threshold_high weather.temp <;>
    rcases lowThresholdTriggered city.temperature_threshold_low weather.temp <;>
    rcases city.notify_rain && pyIn "rain" (pyLower weather.description) <;>
    rcases city.notify_extreme_weather && service_severe_conditions.any
        (fun condition => pyIn condition (pyLower weather.description)) <;>
    simp

/-- Witness for C10 at thresholds high = 30 > low = 10, temperature 25. -/
theorem evaluator_intent_bounds_witness :
    (analyze_weather_conditions ⟨25, "clear sky"⟩
      ⟨"London", some 30, some 10, true, true⟩).length ≤ 4 :=
  (evaluator_intent_bounds ⟨25, "clear sky"⟩
      ⟨"London", some 30, some 10, true, true⟩ (some ⟨true, false, true⟩)
      true 0 0
      (by intro a b ha hb
          simp only [Option.some.injEq] at ha hb
          subst ha; subst hb; norm_num)
      (by decide)).2.2.1

/-- Claim C5: the weather gateway maps every fetch failure (connection
error, timeout, non-2xx response) to `none` instead of raising, and a city
whose fetch is unavailable — or whose payload lacks the `'main'` field —
contributes no alert and no audit record to the sweep: the state is
unchanged. -/
theorem unavailable_weather_no_effects :
    (∀ status : Nat,
      get_weather_data FetchOutcome.connectionError = none ∧
      get_weather_data FetchOutcome.timeoutError = none ∧
      get_weather_data (FetchOutcome.httpError status) = none) ∧
    (∀ (profile : Option UserProfile) (transportOk : Bool) (now : Int)
        (user : Nat) (city : FavoriteCity) (outcome : FetchOutcome)
        (st : DBState),
      (∀ wd, get_weather_data outcome = some wd → wd.main = none) →
      check_weather_alerts_for_user profile transportOk now user
        [(city, outcome)] st = st) := by
  constructor
  · intro status
    exact ⟨rfl, rfl, rfl⟩
  · intro profile transportOk now user city outcome st hmain
    unfold check_weather_alerts_for_user
    by_cases hgate : can_send_notification profile
    · simp only [hgate, Bool.not_true, Bool.false_eq_true, if_false,
        List.foldl_cons, List.foldl_nil]
      cases hw : get_weather_data outcome with
      | none => rfl
      | some wd =>
        have : wd.main = none := hmain wd hw
        simp [this]
    · simp [hgate]

/-- Witness for C5: a timed-out fetch for one favorite city leaves the
state untouched. -/
theorem unavailable_weather_no_effects_witness :
    check_weather_alerts_for_user (some ⟨true, false, true⟩) true 0 0
      [(⟨"London", some 35, some 5, true, true⟩, FetchOutcome.timeoutError)]
      ⟨[], []⟩ = ⟨[], []⟩ :=
  unavailable_weather_no_effects.2 (some ⟨true, false, true⟩) true 0 0
    ⟨"London", some 35, some 5, true, true⟩ FetchOutcome.timeoutError ⟨[], []⟩
    (fun _wd hw => Option.noConfusion hw)

/-- Claim C6: in `send_weather_alert_email`, a transport exception is
converted to the result `false`; the audit record exists iff the send
succeeded, and on failure the alert row is returned exactly as it was
(no `is_sent`/`sent_at` transition), while on success the alert is marked
sent. -/
theorem send_alert_email_audit (profile : Option UserProfile)
    (transportOk : Bool) (now : Int) (alert : WeatherAlertRec) :
    ((send_weather_alert_email profile transportOk now alert).2.2.isSome =
      (send_weather_alert_email profile transportOk now alert).1) ∧
    (transportOk = false →
      (send_weather_alert_email profile transportOk now alert).1 = false) ∧
    ((send_weather_alert_email profile transportOk now alert).1 = false →
      (send_weather_alert_email profile transportOk now alert).2.1 = alert ∧
      (send_weather_alert_email profile transportOk now alert).2.2 = none) ∧
    ((send_weather_alert_email profile transportOk now alert).1 = true →
      (send_weather_alert_email profile transportOk now alert).2.1.is_sent = true ∧
      (send_weather_alert_email profile transportOk now alert).2.1.sent_at = some now ∧
      (send_weather_alert_email profile transportOk now alert).2.2.isSome = true) := by
  by_cases hgate : can_send_notification profile <;>
    cases transportOk <;>
      simp [send_weather_alert_email, hgate]

/-- Witness for C6: a failing transport yields `false`, an unchanged alert
row, and no audit record. -/
theorem send_alert_email_audit_witness :
    (send_weather_alert_email (some ⟨true, false, true⟩) false 5
        ⟨0, "London", AlertType.rain, "m", none, "light rain", 0, false, none⟩).2.1 =
      ⟨0, "London", AlertType.rain, "m", none, "light rain", 0, false, none⟩ ∧
    (send_weather_alert_email (some ⟨true, false, true⟩) false 5
        ⟨0, "London", AlertType.rain, "m", none, "light rain", 0, false, none⟩).2.2 =
      none :=
  (send_alert_email_audit (some ⟨true, false, true⟩) false 5
      ⟨0, "London", AlertType.rain, "m", none, "light rain", 0, false, none⟩).2.2.1
    (by decide)

/-- Claim C7 (counterexample): an EmailNotification row far older than the
cutoff but with `is_sent = false` survives the cleanup — the code deletes
only sent notifications, while the claim says every old notification is
deleted. -/
theorem unsent_notification_survives_cleanup :
    ((⟨0, "s", "m", "weather_alert", false, none, 0⟩ :
        EmailNotificationRec).created_at < 86400 * 100 - 1 * 86400) ∧
    (cleanup_email_notifications (86400 * 100) 1
        [⟨0, "s", "m", "weather_alert", false, none, 0⟩]).1 =
      [⟨0, "s", "m", "weather_alert", false, none, 0⟩] := by
  exact ⟨by norm_num, by decide⟩

/-- Claim C7 (amended): the cleanup deletes exactly the WeatherHistory rows
older than N days, the *sent* WeatherAlert rows older than M days, the
*sent* EmailNotification rows older than K days, and the WeatherForecast
rows older than H hours (thresholds independent); rows newer than the
respective cutoff — and unsent alert/notification rows of any age — are
never deleted. -/
theorem retention_cleanup_characterization (now : Int)
    (history_days alerts_days notifications_days forecast_hours : Int)
    (histories : List WeatherHistoryRec) (alerts : List WeatherAlertRec)
    (notifications : List EmailNotificationRec)
    (forecasts : List WeatherForecastRec) :
    (∀ r, r ∈ (cleanup_weather_history now history_days histories).1 ↔
      r ∈ histories ∧ ¬(r.searched_at < now - history_days * 86400)) ∧
    (∀ r, r ∈ (cleanup_weather_alerts now alerts_days alerts).1 ↔
      r ∈ alerts ∧
        ¬(r.created_at < now - alerts_days * 86400 ∧ r.is_sent = true)) ∧
    (∀ r, r ∈ (cleanup_email_notifications now notifications_days
        notifications).1 ↔
      r ∈ notifications ∧
        ¬(r.created_at < now - notifications_days * 86400 ∧ r.is_sent = true)) ∧
    (∀ r, r ∈ (cleanup_forecasts now forecast_hours forecasts).1 ↔
      r ∈ forecasts ∧ ¬(r.last_updated < now - forecast_hours * 3600)) := by
  refine ⟨fun r => ?_, fun r => ?_, fun r => ?_, fun r => ?_⟩
  · simp [cleanup_weather_history, List.mem_filter]
  · simp only [cleanup_weather_alerts, List.mem_filter, Bool.not_eq_true',
      Bool.and_eq_false_iff, decide_eq_false_iff_not, and_congr_right_iff,
      not_and]
    intro _
    constructor
    · rintro (h1 | h1) h2
      · exact absurd h2 h1
      · simp [h1]
    · intro h1
      by_cases hlt : r.created_at < now - alerts_days * 86400
      · exact Or.inr (by simpa using h1 hlt)
      · exact Or.inl hlt
  · simp only [cleanup_email_notifications, List.mem_filter, Bool.not_eq_true',
      Bool.and_eq_false_iff, decide_eq_false_iff_not, and_congr_right_iff,
      not_and]
    intro _
    constructor
    · rintro (h1 | h1) h2
      · exact absurd h2 h1
      · simp [h1]
    · intro h1
      by_cases hlt : r.created_at < now - notifications_days * 86400
      · exact Or.inr (by simpa using h1 hlt)
      · exact Or.inl hlt
  · simp [cleanup_forecasts, List.mem_filter]

/-- Claim C9: in the alert sweep and the daily-summary sweep, one user's
exception is caught and the loop goes on — the batch result over a list
with a failing user equals the result over the same list with that user
removed, so every later user is still processed. -/
theorem batch_failure_isolation {α : Type}
    (check_user_alerts : α → Except String Nat)
    (send_user_summary : α → Except String Bool) (us vs : List α) (u : α)
    (e e' : String) (h1 : check_user_alerts u = Except.error e)
    (h2 : send_user_summary u = Except.error e') :
    alerts_handle_loop check_user_alerts (us ++ u :: vs) =
      alerts_handle_loop check_user_alerts (us ++ vs) ∧
    summaries_handle_loop send_user_summary (us ++ u :: vs) =
      summaries_handle_loop send_user_summary (us ++ vs) := by
  constructor
  · unfold alerts_handle_loop
    rw [List.foldl_append, List.foldl_append, List.foldl_cons]
    simp [h1]
  · unfold summaries_handle_loop
    rw [List.foldl_append, List.foldl_append, List.foldl_cons]
    simp [h2]

/-- Witness for C9: user 0 fails in the middle of the batch; the sweep
totals are the same as if it were absent, and the remaining users were
processed. -/
theorem batch_failure_isolation_witness :
    alerts_handle_loop
        (fun n => if n = 0 then Except.error "boom" else Except.ok n)
        ([1] ++ 0 :: [2, 3]) =
      alerts_handle_loop
        (fun n => if n = 0 then Except.error "boom" else Except.ok n)
        ([1] ++ [2, 3]) ∧
    summaries_handle_loop
        (fun n => if n = 0 then Except.error "boom" else Except.ok true)
        ([1] ++ 0 :: [2, 3]) =
      summaries_handle_loop
        (fun n => if n = 0 then Except.error "boom" else Except.ok true)
        ([1] ++ [2, 3]) :=
  batch_failure_isolation
    (fun n => if n = 0 then Except.error "boom" else Except.ok n)
    (fun n => if n = 0 then Except.error "boom" else Except.ok true)
    [1] [2, 3] 0 "boom" "boom" rfl rfl

end Climascope
